import Mathlib

/-!
Verification of the StarBarista-cafe admin panels: the contact-message
inbox component (`ContactMessages`) and the bill/receipt component
(`BillDisplay`).  The TypeScript sources are shallowly embedded: each
React state cell becomes a field of an explicit state record, each
event handler becomes a pure function from state to state, and the
browser effects the handlers perform (localStorage writes, toast
notifications, `window.open` calls) are recorded in the state so that
theorems can speak about them.
-/

namespace StarBarista

/-- A toast notification emitted via the `sonner` toast API. -/
inductive Toast where
  | success (text : String)
  | error (text : String)
deriving DecidableEq, Repr

/-- The `ContactMessage` record type of the inbox component:
`{ id; name; email; message; timestamp; isRead; replied?; replyTimestamp? }`.
The two optional TypeScript fields are modelled with `Option`. -/
structure ContactMessage where
  id : String
  name : String
  email : String
  message : String
  timestamp : String
  isRead : Bool
  replied : Option Bool := none
  replyTimestamp : Option String := none
deriving DecidableEq, Repr

/-- The contents of the `localStorage` slot keyed `contactMessages`.
`JSON.stringify` of a message list stores a well-formed encoding of
that list (the encoding is lossless, so it is carried as the list
itself); any other string an external writer may have put in the slot
is a `corrupt` value on which `JSON.parse` throws. -/
inductive StoredValue where
  | wellFormed (msgs : List ContactMessage)
  | corrupt
deriving DecidableEq, Repr

/-- Model of `JSON.parse(localStorage.getItem('contactMessages') || '[]')`:
an absent slot (`getItem` returns `null`) is defaulted to the literal
`'[]'`, which parses to the empty list; a well-formed stored encoding
parses back to the stored list; a corrupt slot makes `JSON.parse`
throw, modelled as `Except.error`. -/
def parseContactMessages : Option StoredValue → Except Unit (List ContactMessage)
  | none => .ok []
  | some (.wellFormed msgs) => .ok msgs
  | some .corrupt => .error ()

/-- The React state of the `ContactMessages` component together with the
browser effects its handlers perform.  `messages`, `selectedMessage`,
`dialogOpen`, `replyDialogOpen`, `replyText`, `isSendingReply` and
`loading` are the seven `useState` cells; `storage` is the
`localStorage` slot keyed `contactMessages`; `toasts` and `openedUrls`
accumulate the emitted notifications and `window.open` calls. -/
structure InboxState where
  messages : List ContactMessage
  selectedMessage : Option ContactMessage := none
  dialogOpen : Bool := false
  replyDialogOpen : Bool := false
  replyText : String := ""
  isSendingReply : Bool := false
  loading : Bool := true
  storage : Option StoredValue := none
  toasts : List Toast := []
  openedUrls : List String := []
deriving DecidableEq, Repr

/-- Handler `loadMessages`: sets the loading flag, parses the stored slot, on
success replaces the in-memory list with the parsed one, on a parse
error logs and emits the toast `'Failed to load contact messages'`
(leaving `messages` untouched, since `setMessages` is never reached),
and finally clears the loading flag. -/
def loadMessages (st : InboxState) : InboxState :=
  match parseContactMessages st.storage with
  | .ok msgs => { st with messages := msgs, loading := false }
  | .error _ =>
      { st with toasts := st.toasts ++ [.error "Failed to load contact messages"],
                loading := false }

/-- The list transformation inside `markAsRead`:
`messages.map(msg => msg.id === id ? { ...msg, isRead: true } : msg)`. -/
def markAsReadList (msgs : List ContactMessage) (id : String) : List ContactMessage :=
  msgs.map fun msg => if msg.id = id then { msg with isRead := true } else msg

/-- Handler `markAsRead`: applies `markAsReadList`, stores the updated list in
the component state and writes its JSON encoding back to the
`contactMessages` slot. -/
def markAsRead (st : InboxState) (id : String) : InboxState :=
  let updatedMessages := markAsReadList st.messages id
  { st with messages := updatedMessages,
            storage := some (.wellFormed updatedMessages) }

/-- The list transformation inside `handleDeleteMessage`:
`messages.filter(msg => msg.id !== id)`. -/
def deleteMessageList (msgs : List ContactMessage) (id : String) : List ContactMessage :=
  msgs.filter fun msg => msg.id ≠ id

/-- Handler `handleDeleteMessage`: filters the entry with the given id out of the
list, stores and persists the remainder, closes the detail dialog and
emits the success toast `'Message deleted successfully'`. -/
def handleDeleteMessage (st : InboxState) (id : String) : InboxState :=
  let updatedMessages := deleteMessageList st.messages id
  { st with messages := updatedMessages,
            storage := some (.wellFormed updatedMessages),
            dialogOpen := false,
            toasts := st.toasts ++ [.success "Message deleted successfully"] }

/-- Handler `handleViewMessage`: selects the message, opens the detail dialog,
and, only when the message is unread, marks it read. -/
def handleViewMessage (st : InboxState) (message : ContactMessage) : InboxState :=
  let st1 := { st with selectedMessage := some message, dialogOpen := true }
  if message.isRead then st1 else markAsRead st1 message.id

/-- The list transformation shared by both reply paths:
`messages.map(msg => msg.id === id ? { ...msg, replied: true,
replyTimestamp: new Date().toISOString() } : msg)`, with `now` the
ISO string returned by the clock read performed inside the handler. -/
def markRepliedList (msgs : List ContactMessage) (id : String) (now : String) :
    List ContactMessage :=
  msgs.map fun msg =>
    if msg.id = id then { msg with replied := some true, replyTimestamp := some now } else msg

/-- The fixed subject string of `handleSendReplyViaEmailClient`. -/
def replySubject : String := "Re: Your inquiry at Brista Cafe"

/-- Whether a character is in the unreserved set of the ECMAScript
`encodeURIComponent` builtin: ASCII alphanumerics and `- _ . ! ~ * ' ( )`
(the apostrophe is matched by its code point 39). -/
def isUriUnreserved (c : Char) : Bool :=
  c.isAlphanum || c = '-' || c = '_' || c = '.' || c = '!' || c = '~' ||
    c = '*' || c.toNat = 39 || c = '(' || c = ')'

/-- The UTF-8 bytes of a character, as natural numbers below 256. -/
def utf8Bytes (c : Char) : List Nat :=
  let n := c.toNat
  if n < 128 then [n]
  else if n < 2048 then [192 + n / 64, 128 + n % 64]
  else if n < 65536 then [224 + n / 4096, 128 + (n / 64) % 64, 128 + n % 64]
  else [240 + n / 262144, 128 + (n / 4096) % 64, 128 + (n / 64) % 64, 128 + n % 64]

/-- An uppercase hexadecimal digit for a value below 16. -/
def hexDigit (n : Nat) : Char :=
  if n < 10 then Char.ofNat (48 + n) else Char.ofNat (55 + n)

/-- A percent-escaped byte, `%XX` with uppercase hex digits. -/
def percentByte (b : Nat) : String :=
  String.mk ['%', hexDigit (b / 16), hexDigit (b % 16)]

/-- Model of the ECMAScript `encodeURIComponent` builtin: unreserved
characters pass through, every other character is replaced by the
percent-escaping of its UTF-8 bytes. -/
def encodeURIComponent (s : String) : String :=
  String.join (s.data.map fun c =>
    if isUriUnreserved c then String.mk [c] else String.join ((utf8Bytes c).map percentByte))

/-- The mailto deep link built by `handleSendReplyViaEmailClient`:
`mailto:${email}?subject=${encodeURIComponent(subject)}&body=${encodeURIComponent(body)}`. -/
def mailtoUrl (email subject body : String) : String :=
  "mailto:" ++ email ++ "?subject=" ++ encodeURIComponent subject ++
    "&body=" ++ encodeURIComponent body

/-- Handler `handleSendReplyViaEmailClient`: returns unchanged when no message is
selected; otherwise opens the mailto deep link, marks the selected
message replied with the current clock reading `now`, persists the
updated list, emits the success toast, closes the reply dialog and
clears the draft. -/
def handleSendReplyViaEmailClient (st : InboxState) (now : String) : InboxState :=
  match st.selectedMessage with
  | none => st
  | some selected =>
      let url := mailtoUrl selected.email replySubject st.replyText
      let updatedMessages := markRepliedList st.messages selected.id now
      { st with openedUrls := st.openedUrls ++ [url],
                messages := updatedMessages,
                storage := some (.wellFormed updatedMessages),
                toasts := st.toasts ++ [.success "Email client opened with pre-filled reply"],
                replyDialogOpen := false,
                replyText := "" }

/-- Derived render value `const unreadCount = messages.filter(msg => !msg.isRead).length`. -/
def unreadCount (msgs : List ContactMessage) : Nat :=
  (msgs.filter fun msg => !msg.isRead).length

/-- The unread badge of the card header: rendered with text
`${unreadCount} new` only when `unreadCount > 0`. -/
def unreadBadge (msgs : List ContactMessage) : Option Nat :=
  if unreadCount msgs > 0 then some (unreadCount msgs) else none

/-- Modelled from the spec: the scalar fields of `OrderType` (imported by
`BillDisplay` from `@/pages/AdminDashboard`, a file not present in the
sources) that the bill actions and the receipt header read — identifier,
optional customer name, optional room/location, payment method, status
and creation timestamp.  The line items and monetary totals are rendered
verbatim and are not needed by any bill action. -/
structure Order where
  id : String
  customer_name : Option String := none
  room_number : Option String := none
  payment_method : String := ""
  status : String := ""
  created_at : String := ""
deriving DecidableEq, Repr

/-- Model of the ECMAScript `s.slice(0, n)`: the first `n` characters. -/
def jsSliceTo (s : String) (n : Nat) : String :=
  String.mk (s.data.take n)

/-- Model of the ECMAScript `s.toUpperCase()`: every character mapped to
its upper-case form. -/
def jsToUpperCase (s : String) : String :=
  String.mk (s.data.map Char.toUpper)

/-- The order-identifier line of the rendered bill:
`{order.id.slice(0, 8).toUpperCase()}`. -/
def billOrderIdDisplay (order : Order) : String :=
  jsToUpperCase (jsSliceTo order.id 8)

/-- The filename passed to `pdf.save` in `downloadPDF`:
`cafe-bill-${order.id}.pdf`. -/
def downloadPdfFilename (order : Order) : String :=
  "cafe-bill-" ++ order.id ++ ".pdf"

/-- The filename of the `File` handed to `navigator.share` in `shareBill`:
`bill-${order.id}.png`. -/
def shareFileName (order : Order) : String :=
  "bill-" ++ order.id ++ ".png"

/-- The title of the share payload in `shareBill`:
`Cafe Bill - Order #${order.id}`. -/
def shareTitle (order : Order) : String :=
  "Cafe Bill - Order #" ++ order.id

/-- The browser environment `shareBill` runs against: whether
`billRef.current` is non-null, whether `html2canvas` plus
`canvas.toBlob` produce an image blob, whether `navigator.share`
exists, and whether the `navigator.share` call resolves. -/
structure ShareEnv where
  billRefPresent : Bool
  captureSucceeds : Bool
  shareSupported : Bool
  shareSucceeds : Bool
deriving DecidableEq, Repr

/-- The observable outcome of one `shareBill` invocation: whether the
`html2canvas` capture of the rendered bill was attempted, the payload
handed to `navigator.share` when the share happened, and the emitted
toasts. -/
structure ShareOutcome where
  captureAttempted : Bool
  sharedPayload : Option (String × String)
  toasts : List Toast
deriving DecidableEq, Repr

/-- Action `shareBill`: returns silently when `billRef.current` is null;
otherwise first captures the rendered node with `html2canvas` and
encodes it to a blob (a failure there is caught and reported as
`'Failed to share bill'`), then — only after the capture — checks
`navigator.share`: when present it shares a file named
`bill-${order.id}.png` under the title `Cafe Bill - Order #${order.id}`
(a rejection is caught and reported as `'Failed to share bill'`), and
when absent it emits the toast `'Sharing not supported on this browser'`. -/
def shareBill (order : Order) (env : ShareEnv) : ShareOutcome :=
  if !env.billRefPresent then
    { captureAttempted := false, sharedPayload := none, toasts := [] }
  else if !env.captureSucceeds then
    { captureAttempted := true, sharedPayload := none,
      toasts := [.error "Failed to share bill"] }
  else if env.shareSupported then
    if env.shareSucceeds then
      { captureAttempted := true,
        sharedPayload := some (shareTitle order, shareFileName order),
        toasts := [] }
    else
      { captureAttempted := true, sharedPayload := none,
        toasts := [.error "Failed to share bill"] }
  else
    { captureAttempted := true, sharedPayload := none,
      toasts := [.error "Sharing not supported on this browser"] }

/-- The `disabled` prop of the Share button:
`isGeneratingBill || !('share' in navigator)`. -/
def shareButtonDisabled (isGeneratingBill shareSupported : Bool) : Bool :=
  isGeneratingBill || !shareSupported

/-! Concrete fixtures used by witness and counterexample statements. -/

/-- A sample unread message. -/
def sampleMsg1 : ContactMessage :=
  { id := "1", name := "Ann", email := "ann@example.com",
    message := "Hello", timestamp := "2024-05-01T10:00:00Z", isRead := false }

/-- A sample read and already-replied message. -/
def sampleMsg2 : ContactMessage :=
  { id := "2", name := "Ben", email := "ben@example.com",
    message := "Query", timestamp := "2024-05-02T11:00:00Z", isRead := true,
    replied := some true, replyTimestamp := some "2024-05-03T09:00:00Z" }

/-- A sample inbox state holding both sample messages, with the storage
slot in sync with the in-memory list. -/
def sampleState : InboxState :=
  { messages := [sampleMsg1, sampleMsg2],
    storage := some (.wellFormed [sampleMsg1, sampleMsg2]),
    selectedMessage := some sampleMsg1, loading := false }

/-! Shared helper lemmas. -/

/-- Recomputing `unreadCount` on a list is counting its entries whose
read flag is false. -/
theorem unreadCount_eq_countP (l : List ContactMessage) :
    unreadCount l = l.countP (fun m => m.isRead = false) := by
  unfold unreadCount
  rw [List.countP_eq_length_filter]
  have hpq : (fun m : ContactMessage => !m.isRead) =
      (fun m : ContactMessage => decide (m.isRead = false)) := by
    funext m
    cases h : m.isRead <;> simp [h]
  rw [hpq]

/-- Every pair of a list zipped with its own map relates by the mapped
function. -/
theorem zip_map_snd {α : Type} (l : List α) (f : α → α) :
    ∀ p ∈ l.zip (l.map f), p.2 = f p.1 := by
  induction l with
  | nil => intro p hp; simp at hp
  | cons a t ih =>
    intro p hp
    simp only [List.map_cons, List.zip_cons_cons, List.mem_cons] at hp
    rcases hp with h | h
    · subst h; rfl
    · exact ih p h

/-- Filtering out an identifier that occurs nowhere in the list leaves
the list unchanged. -/
theorem deleteMessageList_eq_self (l : List ContactMessage) (id : String)
    (h : id ∉ l.map ContactMessage.id) : deleteMessageList l id = l := by
  induction l with
  | nil => rfl
  | cons a t ih =>
    simp only [List.map_cons, List.mem_cons, not_or] at h
    have ha : (decide (a.id ≠ id)) = true := by
      simp only [decide_eq_true_eq]
      exact fun hh => h.1 hh.symm
    have ht := ih h.2
    simp only [deleteMessageList] at ht ⊢
    rw [List.filter_cons, if_pos ha, ht]

/-- Marking read an identifier whose matching entries are already read
leaves the list unchanged. -/
theorem markAsReadList_eq_self (l : List ContactMessage) (id : String)
    (h : ∀ m ∈ l, m.id = id → m.isRead = true) : markAsReadList l id = l := by
  induction l with
  | nil => rfl
  | cons a t ih =>
    have ht := ih fun m hm => h m (List.mem_cons_of_mem a hm)
    simp only [markAsReadList, List.map_cons] at ht ⊢
    by_cases ha : a.id = id
    · have hr : a.isRead = true := h a (List.mem_cons_self a t) ha
      cases a
      simp_all
    · simp [ha, ht]

/-! Claims. -/

/-- Claim C1: for every message list, the unread badge count displayed by
the inbox panel equals the number of messages whose read flag is false;
because `unreadCount` is recomputed from the rendered list on every
render, the same equality holds for the lists produced by each mutation
(mark read, delete, reply). -/
theorem c1_unread_badge_counts_unread (msgs : List ContactMessage) (id now : String) :
    unreadCount msgs = msgs.countP (fun m => m.isRead = false) ∧
    unreadCount (markAsReadList msgs id) =
      (markAsReadList msgs id).countP (fun m => m.isRead = false) ∧
    unreadCount (deleteMessageList msgs id) =
      (deleteMessageList msgs id).countP (fun m => m.isRead = false) ∧
    unreadCount (markRepliedList msgs id now) =
      (markRepliedList msgs id now).countP (fun m => m.isRead = false) ∧
    ∀ n, unreadBadge msgs = some n → n = msgs.countP (fun m => m.isRead = false) := by
  refine ⟨unreadCount_eq_countP _, unreadCount_eq_countP _, unreadCount_eq_countP _,
    unreadCount_eq_countP _, ?_⟩
  intro n hn
  unfold unreadBadge at hn
  by_cases h : unreadCount msgs > 0
  · simp only [h, if_true] at hn
    obtain rfl : unreadCount msgs = n := Option.some.inj hn
    exact unreadCount_eq_countP msgs
  · simp [h] at hn

/-- Witness for C1: on the two sample messages exactly one entry is
unread, and the badge displays that count. -/
theorem c1_unread_badge_counts_unread_witness :
    unreadCount [sampleMsg1, sampleMsg2] =
      List.countP (fun m => m.isRead = false) [sampleMsg1, sampleMsg2] ∧
    (1 : Nat) = List.countP (fun m => m.isRead = false) [sampleMsg1, sampleMsg2] :=
  ⟨(c1_unread_badge_counts_unread [sampleMsg1, sampleMsg2] "1" "t").1,
   (c1_unread_badge_counts_unread [sampleMsg1, sampleMsg2] "1" "t").2.2.2.2 1 (by decide)⟩

/-- Claim C7: mark-read is idempotent — when every entry bearing the
identifier already has read = true (in particular for an already-read
message), `markAsReadList` returns a list equal to the original, and the
whole component state is a fixpoint of `markAsRead` when the storage
slot already holds the current list. -/
theorem c7_mark_read_idempotent (st : InboxState) (id : String)
    (h : ∀ m ∈ st.messages, m.id = id → m.isRead = true) :
    markAsReadList st.messages id = st.messages ∧
    (st.storage = some (.wellFormed st.messages) → markAsRead st id = st) := by
  have h1 := markAsReadList_eq_self st.messages id h
  refine ⟨h1, fun hst => ?_⟩
  simp only [markAsRead, h1, ← hst]

/-- Witness for C7: marking the already-read sample message read again
changes neither the list nor the state. -/
theorem c7_mark_read_idempotent_witness :
    markAsReadList sampleState.messages "2" = sampleState.messages ∧
    markAsRead sampleState "2" = sampleState :=
  ⟨(c7_mark_read_idempotent sampleState "2" (by decide)).1,
   (c7_mark_read_idempotent sampleState "2" (by decide)).2 (by decide)⟩

/-- Splitting lemma for deletion of a unique occurring identifier: the
list splits around the single matching entry and deletion removes
exactly that entry. -/
theorem deleteMessageList_splits (l : List ContactMessage) (id : String)
    (hnodup : (l.map ContactMessage.id).Nodup)
    (hmem : id ∈ l.map ContactMessage.id) :
    ∃ pre m post, l = pre ++ m :: post ∧ m.id = id ∧
      id ∉ pre.map ContactMessage.id ∧ id ∉ post.map ContactMessage.id ∧
      deleteMessageList l id = pre ++ post := by
  induction l with
  | nil => simp at hmem
  | cons a t ih =>
    simp only [List.map_cons, List.nodup_cons] at hnodup
    by_cases ha : a.id = id
    · have hnt : id ∉ t.map ContactMessage.id := ha ▸ hnodup.1
      refine ⟨[], a, t, rfl, ha, by simp, hnt, ?_⟩
      have ht := deleteMessageList_eq_self t id hnt
      simp only [deleteMessageList] at ht ⊢
      rw [List.filter_cons, if_neg (by simp [ha]), ht]
      rfl
    · have hmem' : id ∈ t.map ContactMessage.id := by
        simp only [List.map_cons, List.mem_cons] at hmem
        rcases hmem with h | h
        · exact absurd h.symm ha
        · exact h
      obtain ⟨pre, m, post, he, hid, hpre, hpost, hdel⟩ := ih hnodup.2 hmem'
      have hta : (decide (a.id ≠ id)) = true := by simp [ha]
      refine ⟨a :: pre, m, post, by rw [he, List.cons_append], hid, ?_, hpost, ?_⟩
      · simp only [List.map_cons, List.mem_cons, not_or]
        exact ⟨fun hh => ha hh.symm, hpre⟩
      · simp only [deleteMessageList] at hdel ⊢
        rw [List.filter_cons, if_pos hta, hdel]
        rfl

/-- Claim C2: deleting an identifier occurring in a message list whose
identifiers are unique removes exactly the entry bearing it — the list
splits as `pre ++ m :: post` with `m.id = id` and the resulting list is
`pre ++ post`, every other entry unchanged — persists the new list to
storage, closes the detail dialog and emits the success toast. -/
theorem c2_delete_removes_exactly_matching (st : InboxState) (id : String)
    (hnodup : (st.messages.map ContactMessage.id).Nodup)
    (hmem : id ∈ st.messages.map ContactMessage.id) :
    (∃ pre m post,
        st.messages = pre ++ m :: post ∧ m.id = id ∧
        id ∉ pre.map ContactMessage.id ∧ id ∉ post.map ContactMessage.id ∧
        (handleDeleteMessage st id).messages = pre ++ post) ∧
    (handleDeleteMessage st id).storage =
      some (.wellFormed (handleDeleteMessage st id).messages) ∧
    (handleDeleteMessage st id).dialogOpen = false ∧
    (handleDeleteMessage st id).toasts =
      st.toasts ++ [.success "Message deleted successfully"] := by
  obtain ⟨pre, m, post, he, hid, hpre, hpost, hdel⟩ :=
    deleteMessageList_splits st.messages id hnodup hmem
  exact ⟨⟨pre, m, post, he, hid, hpre, hpost, hdel⟩, rfl, rfl, rfl⟩

/-- Witness for C2: deleting identifier `"2"` from the sample state
persists the remainder, closes the dialog and emits the toast. -/
theorem c2_delete_removes_exactly_matching_witness :
    (handleDeleteMessage sampleState "2").storage =
      some (.wellFormed (handleDeleteMessage sampleState "2").messages) ∧
    (handleDeleteMessage sampleState "2").dialogOpen = false ∧
    (handleDeleteMessage sampleState "2").toasts =
      sampleState.toasts ++ [.success "Message deleted successfully"] :=
  (c2_delete_removes_exactly_matching sampleState "2" (by decide) (by decide)).2

/-- Claim C3: mark-read is a frame-preserving pointwise update — the list
keeps its length, every entry whose identifier differs is unchanged, the
matching entry changes only its read flag (all other fields, its replied
flag and reply timestamp among them, are untouched), and the updated
list as a whole is persisted to storage. -/
theorem c3_mark_read_frame (st : InboxState) (id : String) :
    (markAsRead st id).messages.length = st.messages.length ∧
    (∀ p ∈ st.messages.zip (markAsRead st id).messages,
        (p.1.id ≠ id → p.2 = p.1) ∧
        (p.1.id = id →
          p.2 = { p.1 with isRead := true } ∧
          p.2.replied = p.1.replied ∧ p.2.replyTimestamp = p.1.replyTimestamp)) ∧
    (markAsRead st id).storage = some (.wellFormed (markAsRead st id).messages) := by
  refine ⟨?_, ?_, rfl⟩
  · show (markAsReadList st.messages id).length = _
    unfold markAsReadList
    exact List.length_map _ _
  · intro p hp
    have h2 : p.2 = if p.1.id = id then { p.1 with isRead := true } else p.1 :=
      zip_map_snd st.messages
        (fun msg => if msg.id = id then { msg with isRead := true } else msg) p hp
    constructor
    · intro hne
      rw [h2, if_neg hne]
    · intro heq
      rw [h2, if_pos heq]
      exact ⟨rfl, rfl, rfl⟩

/-- Witness for C3: marking the sample unread message read keeps the list
length and persists the updated list. -/
theorem c3_mark_read_frame_witness :
    (markAsRead sampleState "1").messages.length = sampleState.messages.length ∧
    (markAsRead sampleState "1").storage =
      some (.wellFormed (markAsRead sampleState "1").messages) :=
  ⟨(c3_mark_read_frame sampleState "1").1, (c3_mark_read_frame sampleState "1").2.2⟩

/-- The sample state with the detail dialog open, used to exercise the
dialog-closing effect of deletion. -/
def sampleOpenState : InboxState :=
  { sampleState with dialogOpen := true }

/-- Claim C8: deleting an identifier occurring nowhere in the list
(including the empty string passed when no message is selected) leaves
the list contents unchanged yet still rewrites the whole list to
storage, closes the detail dialog, and still emits the success toast. -/
theorem c8_delete_missing_id (st : InboxState) (id : String)
    (h : id ∉ st.messages.map ContactMessage.id) :
    (handleDeleteMessage st id).messages = st.messages ∧
    (handleDeleteMessage st id).storage = some (.wellFormed st.messages) ∧
    (handleDeleteMessage st id).dialogOpen = false ∧
    (handleDeleteMessage st id).toasts =
      st.toasts ++ [.success "Message deleted successfully"] := by
  have h1 := deleteMessageList_eq_self st.messages id h
  refine ⟨h1, ?_, rfl, rfl⟩
  show some (StoredValue.wellFormed (deleteMessageList st.messages id)) =
    some (StoredValue.wellFormed st.messages)
  rw [h1]

/-- Witness for C8: deleting the empty identifier from the sample state
with its dialog open keeps the messages, closes the dialog and still
emits the success toast. -/
theorem c8_delete_missing_id_witness :
    (handleDeleteMessage sampleOpenState "").messages = sampleOpenState.messages ∧
    (handleDeleteMessage sampleOpenState "").dialogOpen = false ∧
    (handleDeleteMessage sampleOpenState "").toasts =
      sampleOpenState.toasts ++ [.success "Message deleted successfully"] :=
  ⟨(c8_delete_missing_id sampleOpenState "" (by decide)).1,
   (c8_delete_missing_id sampleOpenState "" (by decide)).2.2.1,
   (c8_delete_missing_id sampleOpenState "" (by decide)).2.2.2⟩

/-- The sample state with a corrupt storage slot, as after a successful
load followed by an external overwrite of the slot. -/
def sampleCorruptState : InboxState :=
  { sampleState with storage := some .corrupt }

/-- Counterexample to C5 as stated: refreshing over a corrupt storage
slot reports the error toast but leaves the previous non-empty
in-memory list in place — the list is not emptied. -/
theorem c5_counterexample :
    parseContactMessages sampleCorruptState.storage = .error () ∧
    (loadMessages sampleCorruptState).messages = [sampleMsg1, sampleMsg2] ∧
    (loadMessages sampleCorruptState).messages ≠ [] ∧
    (loadMessages sampleCorruptState).toasts =
      [.error "Failed to load contact messages"] := by
  refine ⟨rfl, rfl, ?_, rfl⟩
  decide

/-- Claim C5 (amended): on every invocation of Load (including Refresh)
where parsing the stored record fails, the error toast is reported, the
in-memory message list is left unchanged — hence empty on the initial
load, where it starts empty — the loading flag is cleared, and no retry
occurs (the handler performs a single parse attempt). -/
theorem c5_load_parse_failure (st : InboxState)
    (h : parseContactMessages st.storage = .error ()) :
    (loadMessages st).messages = st.messages ∧
    (loadMessages st).toasts = st.toasts ++ [.error "Failed to load contact messages"] ∧
    (loadMessages st).loading = false ∧
    (st.messages = [] → (loadMessages st).messages = []) := by
  unfold loadMessages
  rw [h]
  exact ⟨rfl, rfl, rfl, fun he => he⟩

/-- Witness for C5 (amended) at the corrupt-slot sample state. -/
theorem c5_load_parse_failure_witness :
    (loadMessages sampleCorruptState).messages = sampleCorruptState.messages ∧
    (loadMessages sampleCorruptState).loading = false :=
  ⟨(c5_load_parse_failure sampleCorruptState rfl).1,
   (c5_load_parse_failure sampleCorruptState rfl).2.2.1⟩

/-- Claim C9: when the storage slot is absent (never written), Load
defaults the parse input to the literal empty array, yields an empty
message list, reports no toast, and clears the loading flag — a path
distinct from the parse-failure one. -/
theorem c9_load_absent_slot (st : InboxState) (h : st.storage = none) :
    (loadMessages st).messages = [] ∧
    (loadMessages st).toasts = st.toasts ∧
    (loadMessages st).loading = false := by
  unfold loadMessages
  rw [h]
  exact ⟨rfl, rfl, rfl⟩

/-- Witness for C9: loading a fresh state whose slot was never written
yields the empty list and emits no toast. -/
theorem c9_load_absent_slot_witness :
    (loadMessages { messages := [sampleMsg1] }).messages = [] ∧
    (loadMessages { messages := [sampleMsg1] }).toasts = [] :=
  ⟨(c9_load_absent_slot { messages := [sampleMsg1] } rfl).1,
   (c9_load_absent_slot { messages := [sampleMsg1] } rfl).2.1⟩

/-- Claim C6: with a message selected, send-via-external-mail-client
opens exactly one mail-compose deep link — recipient the sender's email,
subject the fixed `Re:` string, body the current draft — and then,
consulting no feedback from the external client, marks the selected
message replied with the clock value `now` read during the synchronous
handler (hence a timestamp not earlier than the initiation of the
send), leaves all other entries and fields untouched, persists the
whole list, emits the success toast, closes the reply editor and clears
the draft. -/
theorem c6_send_reply_via_email_client (st : InboxState) (selected : ContactMessage)
    (now : String) (h : st.selectedMessage = some selected) :
    (handleSendReplyViaEmailClient st now).openedUrls =
      st.openedUrls ++ [mailtoUrl selected.email replySubject st.replyText] ∧
    mailtoUrl selected.email replySubject st.replyText =
      "mailto:" ++ selected.email ++ "?subject=" ++ encodeURIComponent replySubject ++
        "&body=" ++ encodeURIComponent st.replyText ∧
    replySubject = "Re: Your inquiry at Brista Cafe" ∧
    (handleSendReplyViaEmailClient st now).messages.length = st.messages.length ∧
    (∀ p ∈ st.messages.zip (handleSendReplyViaEmailClient st now).messages,
        (p.1.id ≠ selected.id → p.2 = p.1) ∧
        (p.1.id = selected.id →
          p.2 = { p.1 with replied := some true, replyTimestamp := some now })) ∧
    (handleSendReplyViaEmailClient st now).storage =
      some (.wellFormed (handleSendReplyViaEmailClient st now).messages) ∧
    (handleSendReplyViaEmailClient st now).toasts =
      st.toasts ++ [.success "Email client opened with pre-filled reply"] ∧
    (handleSendReplyViaEmailClient st now).replyDialogOpen = false ∧
    (handleSendReplyViaEmailClient st now).replyText = "" := by
  unfold handleSendReplyViaEmailClient
  rw [h]
  refine ⟨rfl, rfl, rfl, ?_, ?_, rfl, rfl, rfl, rfl⟩
  · show (markRepliedList st.messages selected.id now).length = _
    unfold markRepliedList
    exact List.length_map _ _
  · intro p hp
    have h2 : p.2 = if p.1.id = selected.id then
        { p.1 with replied := some true, replyTimestamp := some now } else p.1 :=
      zip_map_snd st.messages
        (fun msg => if msg.id = selected.id then
          { msg with replied := some true, replyTimestamp := some now } else msg) p hp
    constructor
    · intro hne
      rw [h2, if_neg hne]
    · intro heq
      rw [h2, if_pos heq]

/-- Witness for C6: sending a reply from the sample state (selected
message `sampleMsg1`) opens exactly the expected mailto deep link,
emits the success toast and clears the draft. -/
theorem c6_send_reply_via_email_client_witness :
    (handleSendReplyViaEmailClient sampleState "2024-06-01T12:00:00Z").openedUrls =
      sampleState.openedUrls ++
        [mailtoUrl sampleMsg1.email replySubject sampleState.replyText] ∧
    (handleSendReplyViaEmailClient sampleState "2024-06-01T12:00:00Z").toasts =
      sampleState.toasts ++ [.success "Email client opened with pre-filled reply"] ∧
    (handleSendReplyViaEmailClient sampleState "2024-06-01T12:00:00Z").replyText = "" :=
  ⟨(c6_send_reply_via_email_client sampleState sampleMsg1 "2024-06-01T12:00:00Z" rfl).1,
   (c6_send_reply_via_email_client sampleState sampleMsg1
      "2024-06-01T12:00:00Z" rfl).2.2.2.2.2.2.1,
   (c6_send_reply_via_email_client sampleState sampleMsg1
      "2024-06-01T12:00:00Z" rfl).2.2.2.2.2.2.2.2⟩

/-- A sample order. -/
def sampleOrder : Order :=
  { id := "ord-123456789", payment_method := "cash", status := "completed",
    created_at := "2024-05-01T10:00:00Z" }

/-- The share environment of a platform lacking the native share
capability, with the bill node rendered and image capture succeeding. -/
def noShareEnv : ShareEnv :=
  { billRefPresent := true, captureSucceeds := true,
    shareSupported := false, shareSucceeds := true }

/-- Counterexample to C4 as stated: invoking `shareBill` on a platform
without the native share capability does attempt the image capture of
the rendered bill — the capture runs before the capability check — and
only afterwards emits the `not supported` notification. -/
theorem c4_counterexample :
    (shareBill sampleOrder noShareEnv).captureAttempted = true ∧
    (shareBill sampleOrder noShareEnv).toasts =
      [.error "Sharing not supported on this browser"] :=
  ⟨rfl, rfl⟩

/-- Claim C4 (amended): when `shareBill` runs on a platform lacking the
native share capability (bill node present, capture succeeding), the
image capture IS attempted first; nothing is shared and the
`not supported` notification is the only notification. Separately, the
Share button's disabled prop is true whenever the platform lacks the
share capability, so the action is unreachable from the rendered
controls. -/
theorem c4_share_unsupported (order : Order) (env : ShareEnv)
    (h1 : env.shareSupported = false) (h2 : env.billRefPresent = true)
    (h3 : env.captureSucceeds = true) :
    shareBill order env =
      { captureAttempted := true, sharedPayload := none,
        toasts := [.error "Sharing not supported on this browser"] } ∧
    shareButtonDisabled false env.shareSupported = true ∧
    shareButtonDisabled true env.shareSupported = true := by
  unfold shareBill shareButtonDisabled
  rw [h1, h2, h3]
  exact ⟨rfl, rfl, rfl⟩

/-- Witness for C4 (amended) on the sample order in the no-share
environment. -/
theorem c4_share_unsupported_witness :
    shareBill sampleOrder noShareEnv =
      { captureAttempted := true, sharedPayload := none,
        toasts := [.error "Sharing not supported on this browser"] } ∧
    shareButtonDisabled false noShareEnv.shareSupported = true :=
  ⟨(c4_share_unsupported sampleOrder noShareEnv rfl rfl rfl).1,
   (c4_share_unsupported sampleOrder noShareEnv rfl rfl rfl).2.1⟩

/-- Claim C10: the rendered bill shows only the first eight characters
of the order identifier, uppercased — the display's characters are the
uppercase image of the identifier's first eight characters, so its
length is the minimum of 8 and the identifier's length — while the PDF
filename, the share payload filename and the share title all embed the
full, unmodified identifier. -/
theorem c10_order_id_display_and_filenames (order : Order) :
    (billOrderIdDisplay order).data = (order.id.data.take 8).map Char.toUpper ∧
    (billOrderIdDisplay order).length = min 8 order.id.length ∧
    (∃ s t, downloadPdfFilename order = s ++ order.id ++ t) ∧
    (∃ s t, shareFileName order = s ++ order.id ++ t) ∧
    (∃ s, shareTitle order = s ++ order.id) := by
  refine ⟨rfl, ?_, ⟨"cafe-bill-", ".pdf", rfl⟩, ⟨"bill-", ".png", rfl⟩,
    ⟨"Cafe Bill - Order #", rfl⟩⟩
  show ((order.id.data.take 8).map Char.toUpper).length = _
  rw [List.length_map, List.length_take]
  rfl

/-- Witness for C10 on the sample order: the display is the uppercased
first eight characters and has length 8. -/
theorem c10_order_id_display_and_filenames_witness :
    (billOrderIdDisplay sampleOrder).data =
      (sampleOrder.id.data.take 8).map Char.toUpper ∧
    (billOrderIdDisplay sampleOrder).length = min 8 sampleOrder.id.length :=
  ⟨(c10_order_id_display_and_filenames sampleOrder).1,
   (c10_order_id_display_and_filenames sampleOrder).2.1⟩

end StarBarista
